import Mathlib

/-!
Verification of the drive-state reconciliation engine of minio/direct-csi-driver.

The Go sources embedded here are:
  * cmd/direct-csi discovery sync logic: the merge function
    `syncDriveStatesOnDiscovery`, the mismatch policies `noOpSyncFn`,
    `onSyncLegacyFn`, `onSyncUnidentifiedFn`, the mount enforcer
    `verifyDriveMount`, and the reconciliation loop `syncDrive`;
  * the bulk access-tier tagging command `setAccessTier`.

Go mutation of `existingObj` is embedded as pure state passing: a policy or
merge takes the existing record and returns the updated record.  External
collaborators (registry get/update, the mount primitive, glob matching,
YAML logging) are passed in as explicit function arguments.  Machine
integers (int64 capacities, uint32 device numbers) are embedded as
Int / Nat; the only arithmetic performed on them is one int64 subtraction
of two stored field values, far from the overflow range for byte counts.
-/

namespace DirectCSI

/-- Drive status values of the v1beta2 API: Unidentified, Available, InUse,
Ready, Unavailable. -/
inductive DriveStatus where
  | unidentified
  | available
  | inUse
  | ready
  | unavailable
deriving DecidableEq, Repr

/-- Access tier values: Hot, Cold, Warm, Unknown. -/
inductive AccessTier where
  | hot
  | cold
  | warm
  | unknown
deriving DecidableEq, Repr

/-- One status condition of a drive record: (type, boolean state, reason,
message).  The timestamp carried by the Go condition type is not modelled. -/
structure DriveCondition where
  condType : String
  condStatus : Bool
  reason : String
  message : String
deriving DecidableEq, Repr

/-- The status block of a DirectCSIDrive record, with the fields read or
written by the discovery sync logic and the tagging command. -/
structure DirectCSIDriveStatus where
  nodeName : String
  path : String
  rootPartition : String
  partitionNum : Int
  filesystem : String
  mountpoint : String
  mountOptions : List String
  modelNumber : String
  physicalBlockSize : Int
  logicalBlockSize : Int
  currentPath : String
  filesystemUUID : String
  serialNumber : String
  partitionUUID : String
  majorNumber : Nat
  minorNumber : Nat
  totalCapacity : Int
  allocatedCapacity : Int
  freeCapacity : Int
  driveStatus : DriveStatus
  accessTier : AccessTier
  conditions : List DriveCondition
deriving DecidableEq, Repr

/-- A DirectCSIDrive record: its registry name (ObjectMeta.Name) and its
status block. -/
structure DirectCSIDrive where
  name : String
  status : DirectCSIDriveStatus
deriving DecidableEq, Repr

attribute [ext] DirectCSIDrive DirectCSIDriveStatus

/-- Modelled from the spec: the legacy v1beta1 name-construction function
`makeV1beta1DriveName` is not under src/ (only its caller is); the spec says
only that the legacy name is derived purely from node and path.  We model it
as their joined concatenation. -/
def makeV1beta1DriveName (nodeName path : String) : String :=
  nodeName ++ "-" ++ path

/-- A mismatch policy (`onSyncFn` in Go): takes the existing record and the
local record and returns the (possibly mutated) existing record.  The Go
closures mutate only `existingObj`. -/
def OnSyncFn : Type := DirectCSIDrive → DirectCSIDrive → DirectCSIDrive

/-- The no-op mismatch policy `noOpSyncFn`: leaves the existing record
untouched. -/
def noOpSyncFn : OnSyncFn := fun existingObj _ => existingObj

/-- The mid-upgrade predicate computed inside `onSyncLegacyFn`: the record's
name equals the legacy name built from its own NodeName and Path, and all of
SerialNumber, FilesystemUUID, PartitionUUID, MajorNumber, MinorNumber are
unpopulated. -/
def isv1beta2Upgrade (existingObj : DirectCSIDrive) : Bool :=
  if makeV1beta1DriveName existingObj.status.nodeName existingObj.status.path
      = existingObj.name then
    existingObj.status.serialNumber == "" &&
      existingObj.status.filesystemUUID == "" &&
      existingObj.status.partitionUUID == "" &&
      existingObj.status.majorNumber == 0 &&
      existingObj.status.minorNumber == 0
  else false

/-- The legacy-migration mismatch policy `onSyncLegacyFn`: if the record is
not mid-upgrade, set DriveStatus to Unidentified; otherwise leave the record
alone.  It never touches Conditions. -/
def onSyncLegacyFn : OnSyncFn := fun existingObj _ =>
  if isv1beta2Upgrade existingObj then existingObj
  else { existingObj with
          status := { existingObj.status with
                        driveStatus := DriveStatus.unidentified } }

/-- The unconditional mismatch policy `onSyncUnidentifiedFn`: always sets
DriveStatus to Unidentified and replaces Conditions with the local record's
Conditions. -/
def onSyncUnidentifiedFn : OnSyncFn := fun existingObj localDrive =>
  { existingObj with
      status := { existingObj.status with
                    driveStatus := DriveStatus.unidentified,
                    conditions := localDrive.status.conditions } }

/-- The merge `syncDriveStatesOnDiscovery`: run the mismatch policy first,
then copy the local-authoritative fields from `localDrive`, then resolve
capacity: AllocatedCapacity is kept from the (post-policy) existing record
when its DriveStatus is InUse, else taken from local; FreeCapacity is
recomputed as local TotalCapacity minus the resolved AllocatedCapacity.
In the Go source the status test runs after the field copies, but none of
the copied fields is DriveStatus or AllocatedCapacity, so reading them from
the post-policy record is equivalent. -/
def syncDriveStatesOnDiscovery (existingObj localDrive : DirectCSIDrive)
    (onSync : OnSyncFn) : DirectCSIDrive :=
  let e := onSync existingObj localDrive
  let allocatedCapacity :=
    if e.status.driveStatus = DriveStatus.inUse then
      e.status.allocatedCapacity
    else
      localDrive.status.allocatedCapacity
  { e with
      status := { e.status with
        rootPartition := localDrive.status.rootPartition,
        partitionNum := localDrive.status.partitionNum,
        filesystem := localDrive.status.filesystem,
        mountpoint := localDrive.status.mountpoint,
        mountOptions := localDrive.status.mountOptions,
        modelNumber := localDrive.status.modelNumber,
        physicalBlockSize := localDrive.status.physicalBlockSize,
        logicalBlockSize := localDrive.status.logicalBlockSize,
        currentPath := localDrive.status.currentPath,
        filesystemUUID := localDrive.status.filesystemUUID,
        serialNumber := localDrive.status.serialNumber,
        partitionUUID := localDrive.status.partitionUUID,
        majorNumber := localDrive.status.majorNumber,
        minorNumber := localDrive.status.minorNumber,
        totalCapacity := localDrive.status.totalCapacity,
        freeCapacity := localDrive.status.totalCapacity - allocatedCapacity,
        allocatedCapacity := allocatedCapacity } }

/-! ### Mount enforcer and reconciliation loop (`syncDrive` in Go) -/

/-- One entry of the node's mount table snapshot; the sync logic reads only
the mount source. -/
structure MountInfo where
  mountSource : String
deriving DecidableEq, Repr

/-- Modelled from the spec: the device-path helper of the sys package is not
under src/; the spec says the expected mount source is a path keyed by
FilesystemUUID. -/
def getDirectCSIPath (fsuuid : String) : String :=
  "/var/lib/direct-csi/devices/" ++ fsuuid

/-- Modelled from the spec: the sys package mount root is not under src/;
the spec says the expected mount target is a path under a fixed mount root,
keyed by FilesystemUUID. -/
def mountRoot : String := "/var/lib/direct-csi/mnt"

/-- Registry errors distinguished by the reconciliation loop: not-found,
concurrent-modification conflict, and every other registry failure. -/
inductive RegError where
  | notFound
  | conflict
  | internalError
deriving DecidableEq, Repr

/-- The mount enforcer `verifyDriveMount`.  The Discovery receiver's mount
table `d.mounts` and the external mount primitive `MountDrive` are passed
explicitly.  For an InUse or Ready drive not present in the mount table it
invokes the mount primitive with empty options: on success the Mountpoint is
set to the computed target, on failure the record is returned unchanged
together with the error text. -/
def verifyDriveMount (mounts : List MountInfo)
    (mountDrive : String → String → List String → Except String Unit)
    (existingDrive : DirectCSIDrive) : Except String DirectCSIDrive :=
  if existingDrive.status.driveStatus = DriveStatus.inUse ∨
      existingDrive.status.driveStatus = DriveStatus.ready then
    let mountSource := getDirectCSIPath existingDrive.status.filesystemUUID
    let mountTarget := mountRoot ++ "/" ++ existingDrive.status.filesystemUUID
    let isMounted := mounts.any fun mount => mount.mountSource == mountSource
    if isMounted then Except.ok existingDrive
    else
      match mountDrive mountSource mountTarget [] with
      | Except.error err => Except.error err
      | Except.ok _ =>
          Except.ok { existingDrive with
                        status := { existingDrive.status with
                                      mountpoint := mountTarget } }
  else Except.ok existingDrive

/-- Modelled from the spec: `utils.UpdateCondition` is not under src/; it
records the given state, reason and message on the condition of the given
type in the condition list. -/
def updateCondition (conditions : List DriveCondition) (condType : String)
    (condStatus : Bool) (reason message : String) : List DriveCondition :=
  conditions.map fun c =>
    if c.condType = condType then
      { c with condStatus := condStatus, reason := reason, message := message }
    else c

/-- The per-attempt environment of one `driveSync` transaction body: the
registry Get outcome, the mount primitive, and the registry Update outcome
for the record being persisted. -/
structure SyncAttemptEnv where
  getResult : Except RegError DirectCSIDrive
  mountDrive : String → String → List String → Except String Unit
  updateResult : DirectCSIDrive → Except RegError Unit

/-- One execution of the `driveSync` closure body inside `syncDrive`: fetch
the existing record, merge, enforce the mount (a mount failure only updates
the Mounted condition with reason Initialized and the error text), then
persist.  Returns the record passed to Update (when reached) and the
control-flow outcome. -/
def driveSyncAttempt (mounts : List MountInfo)
    (localDrive : DirectCSIDrive) (onSync : OnSyncFn)
    (env : SyncAttemptEnv) :
    Option DirectCSIDrive × Except RegError Unit :=
  match env.getResult with
  | Except.error e => (none, Except.error e)
  | Except.ok existingDrive =>
    let merged := syncDriveStatesOnDiscovery existingDrive localDrive onSync
    let final :=
      match verifyDriveMount mounts env.mountDrive merged with
      | Except.ok d => d
      | Except.error err =>
          { merged with
              status := { merged.status with
                conditions := updateCondition merged.status.conditions
                  "Mounted" false "Initialized" err } }
    (some final, env.updateResult final)

/-- Modelled from the spec: `retry.RetryOnConflict` of client-go is not part
of this repository; the spec says the transaction body is retried on a
concurrent-modification conflict with a bounded number of attempts, any
other outcome being returned as is, and the last conflict error being
surfaced once the budget is exhausted.  `body i` is the outcome of attempt
number `i`. -/
def retryOnConflictAux {α : Type} (body : Nat → Except RegError α) :
    Nat → Nat → Except RegError α
  | _, 0 => Except.error RegError.conflict
  | i, fuel + 1 =>
      match body i with
      | Except.error RegError.conflict => retryOnConflictAux body (i + 1) fuel
      | r => r

/-- Modelled from the spec: bounded conflict retry starting at attempt 0
with the given attempt budget. -/
def retryOnConflict {α : Type} (steps : Nat)
    (body : Nat → Except RegError α) : Except RegError α :=
  retryOnConflictAux body 0 steps

/-- Modelled from the spec: the attempt budget of the default retry policy
(`retry.DefaultRetry` has five steps). -/
def defaultRetrySteps : Nat := 5

/-- The reconciliation loop `syncDrive`: run the transaction body under
bounded conflict retry; a not-found outcome is swallowed and reported as
success, every other error is returned to the caller. -/
def syncDrive (mounts : List MountInfo) (localDrive : DirectCSIDrive)
    (onSync : OnSyncFn) (envs : Nat → SyncAttemptEnv) :
    Except RegError Unit :=
  match retryOnConflict defaultRetrySteps
      (fun i => (driveSyncAttempt mounts localDrive onSync (envs i)).2) with
  | Except.error e =>
      if e = RegError.notFound then Except.ok () else Except.error e
  | Except.ok _ => Except.ok ()

/-! ### The bulk access-tier tagging command (`setAccessTier` in Go) -/

/-- Modelled from the spec: `utils.ValidateAccessTier` is not under src/;
the access-tier argument is validated to one of hot, cold or warm, any
other input being a validation error. -/
def validateAccessTier (s : String) : Except String AccessTier :=
  if s = "hot" then Except.ok AccessTier.hot
  else if s = "cold" then Except.ok AccessTier.cold
  else if s = "warm" then Except.ok AccessTier.warm
  else Except.error ("Invalid access tier value: " ++ s)

/-- The mutation loop of `setAccessTier` over the filtered drives: skip
Unavailable drives; set the access tier; in dry-run mode emit the record,
otherwise persist it; stop at the first logging or persist error. -/
def setAccessTierLoop (dryRun : Bool) (accessT : AccessTier)
    (logYAML : DirectCSIDrive → Except String Unit)
    (update : DirectCSIDrive → Except String Unit) :
    List DirectCSIDrive → Except String Unit
  | [] => Except.ok ()
  | d :: rest =>
    if d.status.driveStatus = DriveStatus.unavailable then
      setAccessTierLoop dryRun accessT logYAML update rest
    else
      let d' := { d with status := { d.status with accessTier := accessT } }
      if dryRun then
        match logYAML d' with
        | Except.error e => Except.error e
        | Except.ok _ => setAccessTierLoop dryRun accessT logYAML update rest
      else
        match update d' with
        | Except.error e => Except.error e
        | Except.ok _ => setAccessTierLoop dryRun accessT logYAML update rest

/-- The bulk tagging command `setAccessTier`.  Selector validation, argument
validation and tier validation run first; then the registry list; an empty
registry is a descriptive error; the drives matching the glob selectors
(`MatchGlob` is not under src/ and is passed as the `matchGlob` argument)
are then mutated by `setAccessTierLoop`. -/
def setAccessTier (dryRun all : Bool)
    (drives nodes status : List String) (args : List String)
    (matchGlob : DirectCSIDrive → List String → List String → List String → Bool)
    (listResult : Except String (List DirectCSIDrive))
    (logYAML : DirectCSIDrive → Except String Unit)
    (update : DirectCSIDrive → Except String Unit) : Except String Unit :=
  if ¬ all ∧ drives = [] ∧ nodes = [] ∧ status = [] then
    Except.error
      "atleast one of --all, --drives, --nodes or --status should be specified"
  else if h : args.length = 1 then
    match validateAccessTier (args.get ⟨0, by omega⟩) with
    | Except.error e => Except.error e
    | Except.ok accessT =>
      match listResult with
      | Except.error e => Except.error e
      | Except.ok items =>
        if items.length = 0 then Except.error "No resources found"
        else
          setAccessTierLoop dryRun accessT logYAML update
            (items.filter fun d => matchGlob d nodes drives status)
  else
    Except.error
      "Invalid input arguments. Please use --help for examples to set access-tiers"

/-! ### Concrete records and environments used to evaluate the theorems -/

/-- A baseline status block for concrete evaluations. -/
def sampleStatus : DirectCSIDriveStatus :=
  { nodeName := "node1", path := "/dev/xa", rootPartition := "",
    partitionNum := 0, filesystem := "xfs", mountpoint := "",
    mountOptions := [], modelNumber := "", physicalBlockSize := 512,
    logicalBlockSize := 512, currentPath := "", filesystemUUID := "",
    serialNumber := "", partitionUUID := "", majorNumber := 0,
    minorNumber := 0, totalCapacity := 100, allocatedCapacity := 0,
    freeCapacity := 100, driveStatus := DriveStatus.available,
    accessTier := AccessTier.unknown, conditions := [] }

/-- A baseline drive record for concrete evaluations. -/
def sampleDrive : DirectCSIDrive := { name := "drive-a", status := sampleStatus }

/-- An InUse record with a nonzero reservation. -/
def inUseDrive : DirectCSIDrive :=
  { sampleDrive with
      status := { sampleStatus with
                    driveStatus := DriveStatus.inUse,
                    allocatedCapacity := 100 } }

/-- A locally observed record whose AllocatedCapacity differs from the
cluster-side reservation. -/
def localSmall : DirectCSIDrive :=
  { sampleDrive with
      status := { sampleStatus with
                    allocatedCapacity := 7, totalCapacity := 50 } }

/-- A record whose name does not follow the legacy scheme and whose status
is already Unidentified. -/
def strayUnidentifiedDrive : DirectCSIDrive :=
  { name := "zzz",
    status := { sampleStatus with driveStatus := DriveStatus.unidentified } }

/-- A true Mounted condition. -/
def mountedTrueCond : DriveCondition :=
  { condType := "Mounted", condStatus := true, reason := "r", message := "m" }

/-- A record whose name does not follow the legacy scheme and that carries a
condition list. -/
def conditionedStrayDrive : DirectCSIDrive :=
  { name := "zzz",
    status := { sampleStatus with conditions := [mountedTrueCond] } }

/-- A record with a populated serial number. -/
def serialDrive : DirectCSIDrive :=
  { sampleDrive with
      status := { sampleStatus with serialNumber := "S123" } }

/-- A mid-upgrade record: legacy name built from its own node and path, all
identity fields unpopulated. -/
def legacyNamedDrive : DirectCSIDrive :=
  { name := makeV1beta1DriveName "node1" "/dev/xa", status := sampleStatus }

/-- A local record carrying a freshly read hardware identifier. -/
def localWithSerial : DirectCSIDrive :=
  { sampleDrive with
      status := { sampleStatus with serialNumber := "S123" } }

/-- A Ready record carrying a filesystem UUID and a Mounted condition. -/
def readyDrive : DirectCSIDrive :=
  { sampleDrive with
      status := { sampleStatus with
                    driveStatus := DriveStatus.ready,
                    filesystemUUID := "F1",
                    conditions := [mountedTrueCond] } }

/-- A mount primitive that always fails with the text boom. -/
def failingMounter : String → String → List String → Except String Unit :=
  fun _ _ _ => Except.error "boom"

/-- A glob matcher that matches no drive at all. -/
def noMatchGlob : DirectCSIDrive → List String → List String → List String → Bool :=
  fun _ _ _ _ => false

/-- An environment whose registry fetch reports not-found. -/
def envGetNotFound : SyncAttemptEnv :=
  { getResult := Except.error RegError.notFound,
    mountDrive := fun _ _ _ => Except.ok (),
    updateResult := fun _ => Except.ok () }

/-- An environment whose persist always reports a conflict. -/
def envUpdConflict : SyncAttemptEnv :=
  { getResult := Except.ok sampleDrive,
    mountDrive := fun _ _ _ => Except.ok (),
    updateResult := fun _ => Except.error RegError.conflict }

/-- An environment whose persist reports a non-conflict, non-not-found
registry failure. -/
def envUpdInternal : SyncAttemptEnv :=
  { getResult := Except.ok sampleDrive,
    mountDrive := fun _ _ _ => Except.ok (),
    updateResult := fun _ => Except.error RegError.internalError }

/-- An environment whose persist reports not-found, as when the record was
deleted between the fetch and the persist. -/
def envUpdNotFound : SyncAttemptEnv :=
  { getResult := Except.ok sampleDrive,
    mountDrive := fun _ _ _ => Except.ok (),
    updateResult := fun _ => Except.error RegError.notFound }

/-- An environment whose mount primitive fails and whose persist succeeds. -/
def envMountFail : SyncAttemptEnv :=
  { getResult := Except.ok readyDrive,
    mountDrive := failingMounter,
    updateResult := fun _ => Except.ok () }

/-! ### Helper lemmas shared by the claim theorems -/

/-- Each of the three mismatch policies leaves AllocatedCapacity as it was
on the existing record. -/
theorem policy_preserves_alloc (e l : DirectCSIDrive) (f : OnSyncFn)
    (hf : f = noOpSyncFn ∨ f = onSyncLegacyFn ∨ f = onSyncUnidentifiedFn) :
    (f e l).status.allocatedCapacity = e.status.allocatedCapacity := by
  rcases hf with rfl | rfl | rfl
  · rfl
  · simp only [onSyncLegacyFn]
    split <;> rfl
  · rfl

/-- The generic merge copies the fifteen local-authoritative fields from the
local record, whatever the mismatch policy. -/
theorem sync_copies_local (e l : DirectCSIDrive) (f : OnSyncFn) :
    (syncDriveStatesOnDiscovery e l f).status.rootPartition = l.status.rootPartition ∧
    (syncDriveStatesOnDiscovery e l f).status.partitionNum = l.status.partitionNum ∧
    (syncDriveStatesOnDiscovery e l f).status.filesystem = l.status.filesystem ∧
    (syncDriveStatesOnDiscovery e l f).status.mountpoint = l.status.mountpoint ∧
    (syncDriveStatesOnDiscovery e l f).status.mountOptions = l.status.mountOptions ∧
    (syncDriveStatesOnDiscovery e l f).status.modelNumber = l.status.modelNumber ∧
    (syncDriveStatesOnDiscovery e l f).status.physicalBlockSize = l.status.physicalBlockSize ∧
    (syncDriveStatesOnDiscovery e l f).status.logicalBlockSize = l.status.logicalBlockSize ∧
    (syncDriveStatesOnDiscovery e l f).status.currentPath = l.status.currentPath ∧
    (syncDriveStatesOnDiscovery e l f).status.filesystemUUID = l.status.filesystemUUID ∧
    (syncDriveStatesOnDiscovery e l f).status.serialNumber = l.status.serialNumber ∧
    (syncDriveStatesOnDiscovery e l f).status.partitionUUID = l.status.partitionUUID ∧
    (syncDriveStatesOnDiscovery e l f).status.majorNumber = l.status.majorNumber ∧
    (syncDriveStatesOnDiscovery e l f).status.minorNumber = l.status.minorNumber ∧
    (syncDriveStatesOnDiscovery e l f).status.totalCapacity = l.status.totalCapacity :=
  ⟨rfl, rfl, rfl, rfl, rfl, rfl, rfl, rfl, rfl, rfl, rfl, rfl, rfl, rfl, rfl⟩

/-- The resolved AllocatedCapacity of a merge, read off the merged record:
the post-policy record's value when its status is InUse, else the local
value. -/
theorem sync_alloc_resolved (e l : DirectCSIDrive) (f : OnSyncFn) :
    (syncDriveStatesOnDiscovery e l f).status.allocatedCapacity =
      (if (f e l).status.driveStatus = DriveStatus.inUse then
        (f e l).status.allocatedCapacity
      else l.status.allocatedCapacity) :=
  rfl

/-- FreeCapacity is recomputed from the local TotalCapacity and the resolved
AllocatedCapacity on every merge. -/
theorem sync_free_eq (e l : DirectCSIDrive) (f : OnSyncFn) :
    (syncDriveStatesOnDiscovery e l f).status.freeCapacity =
      l.status.totalCapacity -
        (syncDriveStatesOnDiscovery e l f).status.allocatedCapacity :=
  rfl

/-- The merge passes the post-policy name through unchanged. -/
theorem sync_name' (e l : DirectCSIDrive) (f : OnSyncFn) :
    (syncDriveStatesOnDiscovery e l f).name = (f e l).name := rfl

/-- The merge passes the post-policy DriveStatus through unchanged. -/
theorem sync_ds' (e l : DirectCSIDrive) (f : OnSyncFn) :
    (syncDriveStatesOnDiscovery e l f).status.driveStatus =
      (f e l).status.driveStatus := rfl

/-- Propositional characterization of the mid-upgrade predicate. -/
theorem isUpg_iff (e : DirectCSIDrive) :
    isv1beta2Upgrade e = true ↔
      (makeV1beta1DriveName e.status.nodeName e.status.path = e.name ∧
        e.status.serialNumber = "" ∧ e.status.filesystemUUID = "" ∧
        e.status.partitionUUID = "" ∧ e.status.majorNumber = 0 ∧
        e.status.minorNumber = 0) := by
  unfold isv1beta2Upgrade
  by_cases h : makeV1beta1DriveName e.status.nodeName e.status.path = e.name
  · simp [h, Bool.and_eq_true, beq_iff_eq, and_assoc]
  · simp [h]

/-- The legacy policy leaves every field other than DriveStatus as it was
on the existing record. -/
theorem legacy_fields (e l : DirectCSIDrive) :
    (onSyncLegacyFn e l).name = e.name ∧
    (onSyncLegacyFn e l).status.nodeName = e.status.nodeName ∧
    (onSyncLegacyFn e l).status.path = e.status.path ∧
    (onSyncLegacyFn e l).status.allocatedCapacity = e.status.allocatedCapacity ∧
    (onSyncLegacyFn e l).status.conditions = e.status.conditions ∧
    (onSyncLegacyFn e l).status.accessTier = e.status.accessTier := by
  unfold onSyncLegacyFn
  split <;> exact ⟨rfl, rfl, rfl, rfl, rfl, rfl⟩

/-- The status written by the legacy policy, as a conditional. -/
theorem legacy_ds (e l : DirectCSIDrive) :
    (onSyncLegacyFn e l).status.driveStatus =
      (if isv1beta2Upgrade e then e.status.driveStatus
        else DriveStatus.unidentified) := by
  unfold onSyncLegacyFn
  split <;> rfl

/-- The mid-upgrade predicate evaluated on the result of a legacy-policy
merge: the name test is inherited from the existing record, the identity
emptiness test moves to the local record's freshly copied fields. -/
theorem isUpg_sync_legacy (e l : DirectCSIDrive) :
    isv1beta2Upgrade (syncDriveStatesOnDiscovery e l onSyncLegacyFn) = true ↔
      (makeV1beta1DriveName e.status.nodeName e.status.path = e.name ∧
        (l.status.serialNumber = "" ∧ l.status.filesystemUUID = "" ∧
          l.status.partitionUUID = "" ∧ l.status.majorNumber = 0 ∧
          l.status.minorNumber = 0)) := by
  rw [isUpg_iff]
  have h1 : (syncDriveStatesOnDiscovery e l onSyncLegacyFn).name = e.name :=
    (sync_name' e l onSyncLegacyFn).trans (legacy_fields e l).1
  have h2 : (syncDriveStatesOnDiscovery e l onSyncLegacyFn).status.nodeName
      = e.status.nodeName :=
    (legacy_fields e l).2.1
  have h3 : (syncDriveStatesOnDiscovery e l onSyncLegacyFn).status.path
      = e.status.path :=
    (legacy_fields e l).2.2.1
  have h4 := sync_copies_local e l onSyncLegacyFn
  rw [h1, h2, h3, h4.2.2.2.2.2.2.2.2.2.2.1, h4.2.2.2.2.2.2.2.2.2.1,
      h4.2.2.2.2.2.2.2.2.2.2.2.1, h4.2.2.2.2.2.2.2.2.2.2.2.2.1,
      h4.2.2.2.2.2.2.2.2.2.2.2.2.2.1]

/-- The status of a legacy-policy merge, as a conditional. -/
theorem sync_legacy_ds_eq (e l : DirectCSIDrive) :
    (syncDriveStatesOnDiscovery e l onSyncLegacyFn).status.driveStatus =
      (if isv1beta2Upgrade e then e.status.driveStatus
        else DriveStatus.unidentified) :=
  (sync_ds' e l onSyncLegacyFn).trans (legacy_ds e l)

/-- The AllocatedCapacity of a legacy-policy merge, keyed on the merged
record's own status. -/
theorem sync_legacy_alloc_eq (e l : DirectCSIDrive) :
    (syncDriveStatesOnDiscovery e l onSyncLegacyFn).status.allocatedCapacity =
      (if (syncDriveStatesOnDiscovery e l onSyncLegacyFn).status.driveStatus
            = DriveStatus.inUse then
        e.status.allocatedCapacity
      else l.status.allocatedCapacity) := by
  rw [sync_alloc_resolved, (legacy_fields e l).2.2.2.1]
  rfl

/-- Idempotence of the merge under the no-op policy. -/
theorem noOp_sync_idem (e l : DirectCSIDrive) :
    syncDriveStatesOnDiscovery
        (syncDriveStatesOnDiscovery e l noOpSyncFn) l noOpSyncFn
      = syncDriveStatesOnDiscovery e l noOpSyncFn := by
  by_cases h : e.status.driveStatus = DriveStatus.inUse <;>
    simp [syncDriveStatesOnDiscovery, noOpSyncFn, h]

/-- Idempotence of the merge under the force-unidentified policy. -/
theorem unidentified_sync_idem (e l : DirectCSIDrive) :
    syncDriveStatesOnDiscovery
        (syncDriveStatesOnDiscovery e l onSyncUnidentifiedFn) l
        onSyncUnidentifiedFn
      = syncDriveStatesOnDiscovery e l onSyncUnidentifiedFn := by
  simp [syncDriveStatesOnDiscovery, onSyncUnidentifiedFn]

/-- Idempotence of the merge under the legacy policy, away from the failing
region: it can only break when the first merge populates an identity field
of a mid-upgrade record whose status is not yet Unidentified. -/
theorem legacy_sync_idem (e l : DirectCSIDrive)
    (h : isv1beta2Upgrade e = true →
      e.status.driveStatus ≠ DriveStatus.unidentified →
      (l.status.serialNumber = "" ∧ l.status.filesystemUUID = "" ∧
        l.status.partitionUUID = "" ∧ l.status.majorNumber = 0 ∧
        l.status.minorNumber = 0)) :
    syncDriveStatesOnDiscovery
        (syncDriveStatesOnDiscovery e l onSyncLegacyFn) l onSyncLegacyFn
      = syncDriveStatesOnDiscovery e l onSyncLegacyFn := by
  have hds : (syncDriveStatesOnDiscovery
        (syncDriveStatesOnDiscovery e l onSyncLegacyFn) l
        onSyncLegacyFn).status.driveStatus
      = (syncDriveStatesOnDiscovery e l onSyncLegacyFn).status.driveStatus := by
    rw [sync_legacy_ds_eq (syncDriveStatesOnDiscovery e l onSyncLegacyFn) l]
    by_cases hup : isv1beta2Upgrade e = true
    · by_cases hdse : e.status.driveStatus = DriveStatus.unidentified
      · have hu : (syncDriveStatesOnDiscovery e l
              onSyncLegacyFn).status.driveStatus
            = DriveStatus.unidentified := by
          rw [sync_legacy_ds_eq e l, if_pos hup, hdse]
        rw [hu]
        split <;> rfl
      · have hl := h hup hdse
        have hup1 : isv1beta2Upgrade
            (syncDriveStatesOnDiscovery e l onSyncLegacyFn) = true :=
          (isUpg_sync_legacy e l).mpr ⟨((isUpg_iff e).mp hup).1, hl⟩
        rw [if_pos hup1]
    · have hu : (syncDriveStatesOnDiscovery e l
            onSyncLegacyFn).status.driveStatus
          = DriveStatus.unidentified := by
        rw [sync_legacy_ds_eq e l, if_neg hup]
      rw [hu]
      split <;> rfl
  have halloc : (syncDriveStatesOnDiscovery
        (syncDriveStatesOnDiscovery e l onSyncLegacyFn) l
        onSyncLegacyFn).status.allocatedCapacity
      = (syncDriveStatesOnDiscovery e l
          onSyncLegacyFn).status.allocatedCapacity := by
    rw [sync_legacy_alloc_eq (syncDriveStatesOnDiscovery e l onSyncLegacyFn) l,
      hds]
    by_cases hin : (syncDriveStatesOnDiscovery e l
        onSyncLegacyFn).status.driveStatus = DriveStatus.inUse
    · rw [if_pos hin]
    · rw [if_neg hin, sync_legacy_alloc_eq e l, if_neg hin]
  have hcopy1 := sync_copies_local e l onSyncLegacyFn
  have hcopy2 := sync_copies_local
    (syncDriveStatesOnDiscovery e l onSyncLegacyFn) l onSyncLegacyFn
  have hlf := legacy_fields (syncDriveStatesOnDiscovery e l onSyncLegacyFn) l
  apply DirectCSIDrive.ext
  · exact (sync_name' (syncDriveStatesOnDiscovery e l onSyncLegacyFn) l
      onSyncLegacyFn).trans hlf.1
  · apply DirectCSIDriveStatus.ext
    · exact hlf.2.1
    · exact hlf.2.2.1
    · exact hcopy2.1.trans hcopy1.1.symm
    · exact hcopy2.2.1.trans hcopy1.2.1.symm
    · exact hcopy2.2.2.1.trans hcopy1.2.2.1.symm
    · exact hcopy2.2.2.2.1.trans hcopy1.2.2.2.1.symm
    · exact hcopy2.2.2.2.2.1.trans hcopy1.2.2.2.2.1.symm
    · exact hcopy2.2.2.2.2.2.1.trans hcopy1.2.2.2.2.2.1.symm
    · exact hcopy2.2.2.2.2.2.2.1.trans hcopy1.2.2.2.2.2.2.1.symm
    · exact hcopy2.2.2.2.2.2.2.2.1.trans hcopy1.2.2.2.2.2.2.2.1.symm
    · exact hcopy2.2.2.2.2.2.2.2.2.1.trans hcopy1.2.2.2.2.2.2.2.2.1.symm
    · exact hcopy2.2.2.2.2.2.2.2.2.2.1.trans hcopy1.2.2.2.2.2.2.2.2.2.1.symm
    · exact hcopy2.2.2.2.2.2.2.2.2.2.2.1.trans hcopy1.2.2.2.2.2.2.2.2.2.2.1.symm
    · exact hcopy2.2.2.2.2.2.2.2.2.2.2.2.1.trans
        hcopy1.2.2.2.2.2.2.2.2.2.2.2.1.symm
    · exact hcopy2.2.2.2.2.2.2.2.2.2.2.2.2.1.trans
        hcopy1.2.2.2.2.2.2.2.2.2.2.2.2.1.symm
    · exact hcopy2.2.2.2.2.2.2.2.2.2.2.2.2.2.1.trans
        hcopy1.2.2.2.2.2.2.2.2.2.2.2.2.2.1.symm
    · exact hcopy2.2.2.2.2.2.2.2.2.2.2.2.2.2.2.trans
        hcopy1.2.2.2.2.2.2.2.2.2.2.2.2.2.2.symm
    · exact halloc
    · rw [sync_free_eq (syncDriveStatesOnDiscovery e l onSyncLegacyFn) l,
        halloc, sync_free_eq e l]
    · exact hds
    · exact hlf.2.2.2.2.2
    · exact hlf.2.2.2.2.1

/-! ### C1 -/

/-- C1 counterexample: the claim states that whenever the existing record is
InUse at invocation time, AllocatedCapacity survives the merge for every
mismatch policy.  With the force-unidentified policy the status test inside
the merge runs after the policy has set the status away from InUse, so
AllocatedCapacity (100) is overwritten with the local value (7). -/
theorem allocated_overwritten_when_policy_clears_inUse_cex :
    inUseDrive.status.driveStatus = DriveStatus.inUse ∧
    (syncDriveStatesOnDiscovery inUseDrive localSmall
        onSyncUnidentifiedFn).status.allocatedCapacity
      ≠ inUseDrive.status.allocatedCapacity := by
  exact ⟨rfl, by decide⟩

/-- C1 (amended): for the repository's mismatch policies, whenever the
record's DriveStatus is still InUse after the policy ran, the merged
AllocatedCapacity equals the existing record's pre-merge AllocatedCapacity,
for every local record; the status test happens after the policy, so a
policy that moves the status away from InUse makes the merge take the local
value instead. -/
theorem allocated_preserved_when_inUse_after_policy
    (e l : DirectCSIDrive) (f : OnSyncFn)
    (hf : f = noOpSyncFn ∨ f = onSyncLegacyFn ∨ f = onSyncUnidentifiedFn)
    (h : (f e l).status.driveStatus = DriveStatus.inUse) :
    (syncDriveStatesOnDiscovery e l f).status.allocatedCapacity =
      e.status.allocatedCapacity := by
  rw [sync_alloc_resolved, if_pos h, policy_preserves_alloc e l f hf]

/-- C1 witness: the amended theorem evaluated with the no-op policy on an
InUse record. -/
theorem allocated_preserved_when_inUse_after_policy_w :
    (syncDriveStatesOnDiscovery inUseDrive localSmall
        noOpSyncFn).status.allocatedCapacity
      = inUseDrive.status.allocatedCapacity :=
  allocated_preserved_when_inUse_after_policy inUseDrive localSmall noOpSyncFn
    (Or.inl rfl) (by decide)

/-! ### C2 -/

/-- C2: after every merge, FreeCapacity equals the local TotalCapacity minus
the resolved AllocatedCapacity, which for every repository mismatch policy
is the existing record's value exactly when the status is InUse after the
policy ran and the local value otherwise; equivalently the merged record
satisfies FreeCapacity = TotalCapacity - AllocatedCapacity. -/
theorem merge_capacity_reconciled
    (e l : DirectCSIDrive) (f : OnSyncFn)
    (hf : f = noOpSyncFn ∨ f = onSyncLegacyFn ∨ f = onSyncUnidentifiedFn) :
    (syncDriveStatesOnDiscovery e l f).status.freeCapacity =
      (syncDriveStatesOnDiscovery e l f).status.totalCapacity -
        (syncDriveStatesOnDiscovery e l f).status.allocatedCapacity ∧
    (syncDriveStatesOnDiscovery e l f).status.totalCapacity =
      l.status.totalCapacity ∧
    (syncDriveStatesOnDiscovery e l f).status.allocatedCapacity =
      (if (f e l).status.driveStatus = DriveStatus.inUse then
        e.status.allocatedCapacity
      else l.status.allocatedCapacity) := by
  refine ⟨rfl, rfl, ?_⟩
  rw [sync_alloc_resolved]
  by_cases h : (f e l).status.driveStatus = DriveStatus.inUse
  · rw [if_pos h, if_pos h, policy_preserves_alloc e l f hf]
  · rw [if_neg h, if_neg h]

/-- C2 witness: the capacity reconciliation evaluated with the no-op policy
on an InUse record. -/
theorem merge_capacity_reconciled_w :
    (syncDriveStatesOnDiscovery inUseDrive localSmall
        noOpSyncFn).status.freeCapacity =
      (syncDriveStatesOnDiscovery inUseDrive localSmall
          noOpSyncFn).status.totalCapacity -
        (syncDriveStatesOnDiscovery inUseDrive localSmall
            noOpSyncFn).status.allocatedCapacity :=
  (merge_capacity_reconciled inUseDrive localSmall noOpSyncFn (Or.inl rfl)).1

/-! ### C3 -/

/-- C3 counterexample: the claim is an equivalence, but a record whose
status is already Unidentified and whose mid-upgrade predicate fails keeps
its status value unchanged even though the predicate does not hold. -/
theorem legacy_status_unchanged_despite_predicate_failure_cex :
    isv1beta2Upgrade strayUnidentifiedDrive = false ∧
    (onSyncLegacyFn strayUnidentifiedDrive sampleDrive).status.driveStatus
      = strayUnidentifiedDrive.status.driveStatus := by
  exact ⟨by decide, by decide⟩

/-- C3 (amended): the legacy policy leaves the record untouched when the
mid-upgrade predicate holds and sets DriveStatus to Unidentified in every
other case; hence the status value is unchanged exactly when the predicate
holds or the status was already Unidentified. -/
theorem legacy_policy_status_rule (e l : DirectCSIDrive) :
    (onSyncLegacyFn e l).status.driveStatus =
      (if isv1beta2Upgrade e then e.status.driveStatus
        else DriveStatus.unidentified) ∧
    ((onSyncLegacyFn e l).status.driveStatus = e.status.driveStatus ↔
      (isv1beta2Upgrade e = true ∨
        e.status.driveStatus = DriveStatus.unidentified)) := by
  by_cases h : isv1beta2Upgrade e
  · refine ⟨by simp [onSyncLegacyFn, h], by simp [onSyncLegacyFn, h]⟩
  · constructor
    · simp [onSyncLegacyFn, h]
    · simp only [onSyncLegacyFn, if_neg h]
      constructor
      · intro heq
        exact Or.inr heq.symm
      · intro hd
        rcases hd with hd | hd
        · exact absurd hd (by simpa using h)
        · exact hd.symm

/-! ### C4 -/

/-- C4 counterexample: the legacy policy marks the record Unidentified (the
mid-upgrade predicate fails) yet leaves its Conditions untouched instead of
replacing them with the local record's Conditions. -/
theorem legacy_marks_unidentified_keeps_conditions_cex :
    (onSyncLegacyFn conditionedStrayDrive sampleDrive).status.driveStatus
      = DriveStatus.unidentified ∧
    (onSyncLegacyFn conditionedStrayDrive sampleDrive).status.conditions
      ≠ sampleDrive.status.conditions := by
  exact ⟨by decide, by decide⟩

/-- C4 (amended): the legacy policy never touches Conditions; the Conditions
replacement is performed by the unconditional policy `onSyncUnidentifiedFn`,
which always marks the record Unidentified and always takes the local
record's Conditions. -/
theorem conditions_replacement_by_policy (e l : DirectCSIDrive) :
    (onSyncLegacyFn e l).status.conditions = e.status.conditions ∧
    (onSyncUnidentifiedFn e l).status.conditions = l.status.conditions ∧
    (onSyncUnidentifiedFn e l).status.driveStatus =
      DriveStatus.unidentified := by
  refine ⟨?_, rfl, rfl⟩
  simp only [onSyncLegacyFn]
  split <;> rfl

/-! ### C5 -/

/-- C5 counterexample: a populated SerialNumber on the existing record is
cleared by a merge whose local record carries an empty SerialNumber. -/
theorem identity_field_cleared_by_merge_cex :
    serialDrive.status.serialNumber ≠ "" ∧
    (syncDriveStatesOnDiscovery serialDrive sampleDrive
        noOpSyncFn).status.serialNumber = "" := by
  exact ⟨by decide, by decide⟩

/-- C5 (amended): the five hardware-identity fields of the merged record
always equal the local record's values, for every mismatch policy; a
populated identity field of the existing record therefore survives a merge
exactly when the local record also carries a populated value. -/
theorem merge_identity_fields_local_authoritative
    (e l : DirectCSIDrive) (f : OnSyncFn) :
    (syncDriveStatesOnDiscovery e l f).status.serialNumber =
      l.status.serialNumber ∧
    (syncDriveStatesOnDiscovery e l f).status.filesystemUUID =
      l.status.filesystemUUID ∧
    (syncDriveStatesOnDiscovery e l f).status.partitionUUID =
      l.status.partitionUUID ∧
    (syncDriveStatesOnDiscovery e l f).status.majorNumber =
      l.status.majorNumber ∧
    (syncDriveStatesOnDiscovery e l f).status.minorNumber =
      l.status.minorNumber :=
  ⟨(sync_copies_local e l f).2.2.2.2.2.2.2.2.2.2.1,
    (sync_copies_local e l f).2.2.2.2.2.2.2.2.2.1,
    (sync_copies_local e l f).2.2.2.2.2.2.2.2.2.2.2.1,
    (sync_copies_local e l f).2.2.2.2.2.2.2.2.2.2.2.2.1,
    (sync_copies_local e l f).2.2.2.2.2.2.2.2.2.2.2.2.2.1⟩

/-! ### C6 -/

/-- C6 counterexample: merging the same local record twice with the
legacy-migration policy is not idempotent.  The first merge of a mid-upgrade
record (legacy name, empty identity) populates the serial number from
local, so the second merge's mid-upgrade predicate fails and flips the
status from Available to Unidentified. -/
theorem merge_not_idempotent_legacy_cex :
    syncDriveStatesOnDiscovery
        (syncDriveStatesOnDiscovery legacyNamedDrive localWithSerial
          onSyncLegacyFn)
        localWithSerial onSyncLegacyFn
      ≠ syncDriveStatesOnDiscovery legacyNamedDrive localWithSerial
          onSyncLegacyFn := by
  decide

/-- C6 (amended): merging twice with no change in between is idempotent for
the no-op and force-unidentified policies unconditionally, and for the
legacy-migration policy except exactly when the existing record is
mid-upgrade, its status is not already Unidentified, and the local record
populates an identity field. -/
theorem merge_idempotent_by_policy :
    (∀ e l : DirectCSIDrive,
      syncDriveStatesOnDiscovery
          (syncDriveStatesOnDiscovery e l noOpSyncFn) l noOpSyncFn
        = syncDriveStatesOnDiscovery e l noOpSyncFn) ∧
    (∀ e l : DirectCSIDrive,
      syncDriveStatesOnDiscovery
          (syncDriveStatesOnDiscovery e l onSyncUnidentifiedFn) l
          onSyncUnidentifiedFn
        = syncDriveStatesOnDiscovery e l onSyncUnidentifiedFn) ∧
    (∀ e l : DirectCSIDrive,
      (isv1beta2Upgrade e = true →
        e.status.driveStatus ≠ DriveStatus.unidentified →
        (l.status.serialNumber = "" ∧ l.status.filesystemUUID = "" ∧
          l.status.partitionUUID = "" ∧ l.status.majorNumber = 0 ∧
          l.status.minorNumber = 0)) →
      syncDriveStatesOnDiscovery
          (syncDriveStatesOnDiscovery e l onSyncLegacyFn) l onSyncLegacyFn
        = syncDriveStatesOnDiscovery e l onSyncLegacyFn) :=
  ⟨noOp_sync_idem, unidentified_sync_idem, legacy_sync_idem⟩

/-- C6 witness: the legacy-policy idempotence evaluated on a mid-upgrade
record with a local record whose identity fields are all empty. -/
theorem merge_idempotent_by_policy_w :
    syncDriveStatesOnDiscovery
        (syncDriveStatesOnDiscovery legacyNamedDrive sampleDrive
          onSyncLegacyFn)
        sampleDrive onSyncLegacyFn
      = syncDriveStatesOnDiscovery legacyNamedDrive sampleDrive
          onSyncLegacyFn :=
  merge_idempotent_by_policy.2.2 legacyNamedDrive sampleDrive
    (fun _ _ => ⟨rfl, rfl, rfl, rfl, rfl⟩)

/-! ### Helper lemmas for the reconciliation loop and the condition list -/

/-- A condition of the targeted type in an updated condition list carries
the written state, reason and message. -/
theorem updateCondition_mem (conds : List DriveCondition) (ct : String)
    (st : Bool) (r m : String) (c : DriveCondition)
    (hc : c ∈ updateCondition conds ct st r m) (ht : c.condType = ct) :
    c.condStatus = st ∧ c.reason = r ∧ c.message = m := by
  unfold updateCondition at hc
  rcases List.mem_map.mp hc with ⟨a, ha, hac⟩
  by_cases h : a.condType = ct
  · rw [if_pos h] at hac
    rw [← hac]
    exact ⟨rfl, rfl, rfl⟩
  · rw [if_neg h] at hac
    rw [← hac] at ht
    exact absurd ht h

/-- If the condition list holds a condition of the targeted type, the
updated list holds one carrying the written state, reason and message. -/
theorem updateCondition_exists (conds : List DriveCondition) (ct : String)
    (st : Bool) (r m : String) (h : ∃ c ∈ conds, c.condType = ct) :
    ∃ c ∈ updateCondition conds ct st r m,
      c.condType = ct ∧ c.condStatus = st ∧ c.reason = r ∧ c.message = m := by
  obtain ⟨a, ha, hat⟩ := h
  refine ⟨{ a with condStatus := st, reason := r, message := m }, ?_,
    hat, rfl, rfl, rfl⟩
  unfold updateCondition
  have := List.mem_map_of_mem
    (fun c => if c.condType = ct then
      { c with condStatus := st, reason := r, message := m } else c) ha
  simpa [hat] using this

/-- The mount enforcer fails with the mount primitive's error when the
record is InUse or Ready, no active mount matches the expected source, and
the primitive fails. -/
theorem verifyDriveMount_fail (mounts : List MountInfo)
    (mounter : String → String → List String → Except String Unit)
    (d : DirectCSIDrive) (msg : String)
    (hstatus : d.status.driveStatus = DriveStatus.inUse ∨
      d.status.driveStatus = DriveStatus.ready)
    (hnomount : (mounts.any fun mount =>
        mount.mountSource == getDirectCSIPath d.status.filesystemUUID) = false)
    (hmount : mounter (getDirectCSIPath d.status.filesystemUUID)
        (mountRoot ++ "/" ++ d.status.filesystemUUID) [] = Except.error msg) :
    verifyDriveMount mounts mounter d = Except.error msg := by
  unfold verifyDriveMount
  rw [if_pos hstatus]
  simp only [hnomount, Bool.false_eq_true, if_false]
  rw [hmount]

/-- The transaction body on a fetched record whose mount enforcement fails:
the merged record with the Mounted condition updated is still persisted. -/
theorem driveSyncAttempt_mountfail (mounts : List MountInfo)
    (l : DirectCSIDrive) (f : OnSyncFn) (e : DirectCSIDrive)
    (mounter : String → String → List String → Except String Unit)
    (upd : DirectCSIDrive → Except RegError Unit) (msg : String)
    (hv : verifyDriveMount mounts mounter
        (syncDriveStatesOnDiscovery e l f) = Except.error msg) :
    driveSyncAttempt mounts l f
        { getResult := Except.ok e, mountDrive := mounter, updateResult := upd }
      = (some { syncDriveStatesOnDiscovery e l f with
                  status := { (syncDriveStatesOnDiscovery e l f).status with
                    conditions := updateCondition
                      (syncDriveStatesOnDiscovery e l f).status.conditions
                      "Mounted" false "Initialized" msg } },
          upd { syncDriveStatesOnDiscovery e l f with
                  status := { (syncDriveStatesOnDiscovery e l f).status with
                    conditions := updateCondition
                      (syncDriveStatesOnDiscovery e l f).status.conditions
                      "Mounted" false "Initialized" msg } }) := by
  unfold driveSyncAttempt
  simp only [hv]

/-- The transaction body returns the registry fetch error unchanged and
persists nothing when the fetch fails. -/
theorem driveSyncAttempt_get_error (mounts : List MountInfo)
    (l : DirectCSIDrive) (f : OnSyncFn) (env : SyncAttemptEnv)
    (err : RegError) (hget : env.getResult = Except.error err) :
    driveSyncAttempt mounts l f env = (none, Except.error err) := by
  unfold driveSyncAttempt
  rw [hget]

/-- The retry combinator returns any non-conflict attempt outcome as is. -/
theorem retryOnConflictAux_not_conflict {α : Type}
    (body : Nat → Except RegError α) (i fuel : Nat) (r : Except RegError α)
    (hr : body i = r) (hne : r ≠ Except.error RegError.conflict) :
    retryOnConflictAux body i (fuel + 1) = r := by
  unfold retryOnConflictAux
  rw [hr]
  rcases r with e | a
  · rcases e with _ | _ | _
    · rfl
    · exact absurd rfl hne
    · rfl
  · rfl

/-- A conflicting attempt makes the retry combinator run the body again at
the next attempt index with one unit of budget spent. -/
theorem retryOnConflictAux_conflict_step {α : Type}
    (body : Nat → Except RegError α) (i fuel : Nat)
    (hb : body i = Except.error RegError.conflict) :
    retryOnConflictAux body i (fuel + 1)
      = retryOnConflictAux body (i + 1) fuel := by
  conv_lhs => unfold retryOnConflictAux
  rw [hb]

/-- When every attempt conflicts, the retry combinator exhausts its budget
and surfaces the conflict error. -/
theorem retryOnConflictAux_all_conflict {α : Type}
    (body : Nat → Except RegError α)
    (h : ∀ i, body i = Except.error RegError.conflict) :
    ∀ fuel i, retryOnConflictAux body i fuel
      = Except.error RegError.conflict := by
  intro fuel
  induction fuel with
  | zero => intro i; rfl
  | succ n ih =>
      intro i
      rw [retryOnConflictAux_conflict_step body i n (h i)]
      exact ih (i + 1)

/-- A first attempt that persists successfully makes the loop succeed. -/
theorem syncDrive_of_attempt0_ok (mounts : List MountInfo)
    (l : DirectCSIDrive) (f : OnSyncFn) (envs : Nat → SyncAttemptEnv)
    (hr : (driveSyncAttempt mounts l f (envs 0)).2 = Except.ok ()) :
    syncDrive mounts l f envs = Except.ok () := by
  have hretry : retryOnConflict defaultRetrySteps
      (fun i => (driveSyncAttempt mounts l f (envs i)).2) = Except.ok () :=
    retryOnConflictAux_not_conflict _ 0 4 _ hr (by simp)
  unfold syncDrive
  rw [hretry]

/-- A non-conflict first-attempt error determines the loop outcome: swallow
not-found, surface anything else. -/
theorem syncDrive_of_attempt0_err (mounts : List MountInfo)
    (l : DirectCSIDrive) (f : OnSyncFn) (envs : Nat → SyncAttemptEnv)
    (err : RegError)
    (hr : (driveSyncAttempt mounts l f (envs 0)).2 = Except.error err)
    (hne : err ≠ RegError.conflict) :
    syncDrive mounts l f envs =
      (if err = RegError.notFound then Except.ok ()
        else Except.error err) := by
  have hretry : retryOnConflict defaultRetrySteps
      (fun i => (driveSyncAttempt mounts l f (envs i)).2)
      = Except.error err :=
    retryOnConflictAux_not_conflict _ 0 4 _ hr (by simp [hne])
  unfold syncDrive
  rw [hretry]

/-- When every attempt conflicts, the loop surfaces the conflict error. -/
theorem syncDrive_all_conflict (mounts : List MountInfo)
    (l : DirectCSIDrive) (f : OnSyncFn) (envs : Nat → SyncAttemptEnv)
    (h : ∀ i, (driveSyncAttempt mounts l f (envs i)).2
      = Except.error RegError.conflict) :
    syncDrive mounts l f envs = Except.error RegError.conflict := by
  have hretry : retryOnConflict defaultRetrySteps
      (fun i => (driveSyncAttempt mounts l f (envs i)).2)
      = Except.error RegError.conflict :=
    retryOnConflictAux_all_conflict _ h defaultRetrySteps 0
  unfold syncDrive
  rw [hretry]
  rfl

/-- The loop can never surface a not-found registry error. -/
theorem syncDrive_ne_notFound_aux (mounts : List MountInfo)
    (l : DirectCSIDrive) (f : OnSyncFn) (envs : Nat → SyncAttemptEnv) :
    syncDrive mounts l f envs ≠ Except.error RegError.notFound := by
  unfold syncDrive
  cases hres : retryOnConflict defaultRetrySteps
      (fun i => (driveSyncAttempt mounts l f (envs i)).2) with
  | error e =>
      by_cases he : e = RegError.notFound <;> simp [he]
  | ok a => simp

/-! ### C7 -/

/-- C7: when the mount primitive fails while enforcing the mount of a
merged record whose status is InUse or Ready (and no active mount matches),
the transaction is not aborted: the record, carrying every field copied
from local by the generic merge and its Mounted condition set to false with
reason Initialized and the error text, is still handed to the persist step,
and the loop result is whatever the persist decides — a successful persist
makes the reconciliation succeed, so the mount error is never returned. -/
theorem mount_failure_absorbed
    (e l : DirectCSIDrive) (f : OnSyncFn) (mounts : List MountInfo)
    (mounter : String → String → List String → Except String Unit)
    (upd : DirectCSIDrive → Except RegError Unit) (msg : String)
    (hstatus : (syncDriveStatesOnDiscovery e l f).status.driveStatus
        = DriveStatus.inUse ∨
      (syncDriveStatesOnDiscovery e l f).status.driveStatus
        = DriveStatus.ready)
    (hnomount : (mounts.any fun mount => mount.mountSource ==
        getDirectCSIPath
          (syncDriveStatesOnDiscovery e l f).status.filesystemUUID) = false)
    (hmount : mounter
        (getDirectCSIPath
          (syncDriveStatesOnDiscovery e l f).status.filesystemUUID)
        (mountRoot ++ "/" ++
          (syncDriveStatesOnDiscovery e l f).status.filesystemUUID)
        [] = Except.error msg) :
    ∃ fin : DirectCSIDrive,
      driveSyncAttempt mounts l f
          { getResult := Except.ok e, mountDrive := mounter,
            updateResult := upd }
        = (some fin, upd fin) ∧
      fin.status.conditions = updateCondition
        (syncDriveStatesOnDiscovery e l f).status.conditions
        "Mounted" false "Initialized" msg ∧
      fin.status.rootPartition = l.status.rootPartition ∧
      fin.status.partitionNum = l.status.partitionNum ∧
      fin.status.filesystem = l.status.filesystem ∧
      fin.status.mountpoint = l.status.mountpoint ∧
      fin.status.mountOptions = l.status.mountOptions ∧
      fin.status.modelNumber = l.status.modelNumber ∧
      fin.status.physicalBlockSize = l.status.physicalBlockSize ∧
      fin.status.logicalBlockSize = l.status.logicalBlockSize ∧
      fin.status.currentPath = l.status.currentPath ∧
      fin.status.filesystemUUID = l.status.filesystemUUID ∧
      fin.status.serialNumber = l.status.serialNumber ∧
      fin.status.partitionUUID = l.status.partitionUUID ∧
      fin.status.majorNumber = l.status.majorNumber ∧
      fin.status.minorNumber = l.status.minorNumber ∧
      fin.status.totalCapacity = l.status.totalCapacity ∧
      (∀ c ∈ fin.status.conditions, c.condType = "Mounted" →
        (c.condStatus = false ∧ c.reason = "Initialized" ∧
          c.message = msg)) ∧
      ((∃ c ∈ (syncDriveStatesOnDiscovery e l f).status.conditions,
          c.condType = "Mounted") →
        ∃ c ∈ fin.status.conditions, c.condType = "Mounted" ∧
          c.condStatus = false ∧ c.reason = "Initialized" ∧
          c.message = msg) ∧
      (upd fin = Except.ok () →
        syncDrive mounts l f (fun _ =>
          { getResult := Except.ok e, mountDrive := mounter,
            updateResult := upd })
          = Except.ok ()) := by
  have hv := verifyDriveMount_fail mounts mounter
    (syncDriveStatesOnDiscovery e l f) msg hstatus hnomount hmount
  have hattempt := driveSyncAttempt_mountfail mounts l f e mounter upd msg hv
  have hc := sync_copies_local e l f
  refine ⟨_, hattempt, rfl, hc.1, hc.2.1, hc.2.2.1, hc.2.2.2.1,
    hc.2.2.2.2.1, hc.2.2.2.2.2.1, hc.2.2.2.2.2.2.1, hc.2.2.2.2.2.2.2.1,
    hc.2.2.2.2.2.2.2.2.1, hc.2.2.2.2.2.2.2.2.2.1, hc.2.2.2.2.2.2.2.2.2.2.1,
    hc.2.2.2.2.2.2.2.2.2.2.2.1, hc.2.2.2.2.2.2.2.2.2.2.2.2.1,
    hc.2.2.2.2.2.2.2.2.2.2.2.2.2.1, hc.2.2.2.2.2.2.2.2.2.2.2.2.2.2,
    ?_, ?_, ?_⟩
  · intro c hcm ht
    exact updateCondition_mem _ _ _ _ _ c hcm ht
  · intro hex
    exact updateCondition_exists _ _ _ _ _ hex
  · intro hupd
    apply syncDrive_of_attempt0_ok
    rw [hattempt]
    exact hupd

/-- C7 witness: a failing mount primitive on a Ready record with an empty
mount table still lets the reconciliation succeed. -/
theorem mount_failure_absorbed_w :
    syncDrive [] localWithSerial noOpSyncFn (fun _ =>
        { getResult := Except.ok readyDrive, mountDrive := failingMounter,
          updateResult := fun _ => Except.ok () })
      = Except.ok () := by
  obtain ⟨fin, h1, h2, h3, h4, h5, h6, h7, h8, h9, h10, h11, h12, h13, h14,
    h15, h16, h17, h18, h19, h20⟩ :=
    mount_failure_absorbed readyDrive localWithSerial noOpSyncFn []
      failingMounter (fun _ => Except.ok ()) "boom" (Or.inr rfl) rfl rfl
  exact h20 rfl

/-! ### C8 -/

/-- C8: the reconciliation loop reports success when the fetch is
not-found; a conflicting attempt makes the retry combinator re-run the
whole transaction body at the next attempt; a run of conflicts exhausting
the bounded budget surfaces the conflict; and a non-conflict, non-not-found
registry error at the first attempt is returned as fatal with no further
attempts consulted. -/
theorem syncDrive_retry_and_error_policy :
    (∀ (mounts : List MountInfo) (l : DirectCSIDrive) (f : OnSyncFn)
        (envs : Nat → SyncAttemptEnv),
      (envs 0).getResult = Except.error RegError.notFound →
      syncDrive mounts l f envs = Except.ok ()) ∧
    (∀ (α : Type) (body : Nat → Except RegError α) (i fuel : Nat),
      body i = Except.error RegError.conflict →
      retryOnConflictAux body i (fuel + 1)
        = retryOnConflictAux body (i + 1) fuel) ∧
    (∀ (mounts : List MountInfo) (l : DirectCSIDrive) (f : OnSyncFn)
        (envs : Nat → SyncAttemptEnv),
      (∀ i, (driveSyncAttempt mounts l f (envs i)).2
        = Except.error RegError.conflict) →
      syncDrive mounts l f envs = Except.error RegError.conflict) ∧
    (∀ (mounts : List MountInfo) (l : DirectCSIDrive) (f : OnSyncFn)
        (envs : Nat → SyncAttemptEnv),
      (driveSyncAttempt mounts l f (envs 0)).2
        = Except.error RegError.internalError →
      syncDrive mounts l f envs = Except.error RegError.internalError) := by
  refine ⟨?_, ?_, ?_, ?_⟩
  · intro mounts l f envs h
    have hb : (driveSyncAttempt mounts l f (envs 0)).2
        = Except.error RegError.notFound := by
      rw [driveSyncAttempt_get_error mounts l f (envs 0) _ h]
    have := syncDrive_of_attempt0_err mounts l f envs RegError.notFound hb
      (by simp)
    simpa using this
  · intro α body i fuel h
    exact retryOnConflictAux_conflict_step body i fuel h
  · intro mounts l f envs h
    exact syncDrive_all_conflict mounts l f envs h
  · intro mounts l f envs h
    have := syncDrive_of_attempt0_err mounts l f envs RegError.internalError h
      (by simp)
    simpa using this

/-- C8 witness: the four retry and error rules evaluated on concrete
environments. -/
theorem syncDrive_retry_and_error_policy_w :
    syncDrive [] sampleDrive noOpSyncFn (fun _ => envGetNotFound)
      = Except.ok () ∧
    retryOnConflictAux
        (fun _ => (Except.error RegError.conflict : Except RegError Unit))
        0 (0 + 1)
      = retryOnConflictAux
        (fun _ => (Except.error RegError.conflict : Except RegError Unit))
        1 0 ∧
    syncDrive [] sampleDrive noOpSyncFn (fun _ => envUpdConflict)
      = Except.error RegError.conflict ∧
    syncDrive [] sampleDrive noOpSyncFn (fun _ => envUpdInternal)
      = Except.error RegError.internalError :=
  ⟨syncDrive_retry_and_error_policy.1 [] sampleDrive noOpSyncFn _ rfl,
    syncDrive_retry_and_error_policy.2.1 Unit
      (fun _ => Except.error RegError.conflict) 0 0 rfl,
    syncDrive_retry_and_error_policy.2.2.1 [] sampleDrive noOpSyncFn _
      (fun _ => rfl),
    syncDrive_retry_and_error_policy.2.2.2 [] sampleDrive noOpSyncFn _ rfl⟩

/-! ### C10 -/

/-- C10: the loop never surfaces a not-found error at all: a not-found
outcome of the first attempt's body — in particular a persist that finds
the record deleted — yields success, and the same holds after a conflict
retry. -/
theorem syncDrive_notFound_benign :
    (∀ (mounts : List MountInfo) (l : DirectCSIDrive) (f : OnSyncFn)
        (envs : Nat → SyncAttemptEnv),
      syncDrive mounts l f envs ≠ Except.error RegError.notFound) ∧
    (∀ (mounts : List MountInfo) (l : DirectCSIDrive) (f : OnSyncFn)
        (envs : Nat → SyncAttemptEnv),
      (driveSyncAttempt mounts l f (envs 0)).2
        = Except.error RegError.notFound →
      syncDrive mounts l f envs = Except.ok ()) ∧
    (∀ (mounts : List MountInfo) (l : DirectCSIDrive) (f : OnSyncFn)
        (envs : Nat → SyncAttemptEnv),
      (driveSyncAttempt mounts l f (envs 0)).2
        = Except.error RegError.conflict →
      (driveSyncAttempt mounts l f (envs 1)).2
        = Except.error RegError.notFound →
      syncDrive mounts l f envs = Except.ok ()) := by
  refine ⟨?_, ?_, ?_⟩
  · intro mounts l f envs
    exact syncDrive_ne_notFound_aux mounts l f envs
  · intro mounts l f envs h
    have := syncDrive_of_attempt0_err mounts l f envs RegError.notFound h
      (by simp)
    simpa using this
  · intro mounts l f envs h0 h1
    have hs : retryOnConflictAux
        (fun i => (driveSyncAttempt mounts l f (envs i)).2) 0 (4 + 1)
        = retryOnConflictAux
          (fun i => (driveSyncAttempt mounts l f (envs i)).2) 1 4 :=
      retryOnConflictAux_conflict_step _ 0 4 h0
    have hn : retryOnConflictAux
        (fun i => (driveSyncAttempt mounts l f (envs i)).2) 1 (3 + 1)
        = Except.error RegError.notFound :=
      retryOnConflictAux_not_conflict _ 1 3 _ h1 (by simp)
    have hretry : retryOnConflict defaultRetrySteps
        (fun i => (driveSyncAttempt mounts l f (envs i)).2)
        = Except.error RegError.notFound := hs.trans hn
    unfold syncDrive
    rw [hretry]
    rfl

/-- C10 witness: a persist that reports not-found, directly and after one
conflict, still yields success. -/
theorem syncDrive_notFound_benign_w :
    syncDrive [] sampleDrive noOpSyncFn (fun _ => envUpdNotFound)
      = Except.ok () ∧
    syncDrive [] sampleDrive noOpSyncFn
        (fun i => if i = 0 then envUpdConflict else envUpdNotFound)
      = Except.ok () :=
  ⟨syncDrive_notFound_benign.2.1 [] sampleDrive noOpSyncFn _ rfl,
    syncDrive_notFound_benign.2.2 [] sampleDrive noOpSyncFn _ rfl rfl⟩

/-! ### C9 -/

/-- C9 counterexample: with a non-empty registry whose single record
matches no selector, the tagging command reports success instead of the
claimed descriptive error. -/
theorem setAccessTier_zero_match_success_cex :
    setAccessTier false true [] [] [] ["hot"] noMatchGlob
        (Except.ok [sampleDrive]) (fun _ => Except.ok ())
        (fun _ => Except.ok ())
      = Except.ok () ∧
    ([sampleDrive].filter fun d => noMatchGlob d [] [] []) = [] ∧
    ([sampleDrive] : List DirectCSIDrive) ≠ [] := by
  refine ⟨rfl, rfl, by simp⟩

/-- C9 (amended): with valid selectors and a valid tier argument, the
command returns the descriptive error exactly for an empty registry; when
the registry is non-empty but zero drives match the selectors it performs
no mutation and reports success. -/
theorem setAccessTier_zero_records_error
    (dryRun all : Bool) (drives nodes status args : List String)
    (s : String) (t : AccessTier)
    (matchGlob : DirectCSIDrive → List String → List String → List String → Bool)
    (logYAML update : DirectCSIDrive → Except String Unit)
    (items : List DirectCSIDrive)
    (hsel : all = true ∨ drives ≠ [] ∨ nodes ≠ [] ∨ status ≠ [])
    (hargs : args = [s]) (hv : validateAccessTier s = Except.ok t) :
    setAccessTier dryRun all drives nodes status args matchGlob
        (Except.ok []) logYAML update = Except.error "No resources found" ∧
    (items ≠ [] →
      (items.filter fun d => matchGlob d nodes drives status) = [] →
      setAccessTier dryRun all drives nodes status args matchGlob
          (Except.ok items) logYAML update = Except.ok ()) := by
  have hguard : ¬(¬all ∧ drives = [] ∧ nodes = [] ∧ status = []) := by
    rcases hsel with h | h | h | h <;> simp [h]
  subst hargs
  constructor
  · unfold setAccessTier
    rw [if_neg hguard, dif_pos (by simp)]
    simp only [List.get]
    rw [hv]
    rfl
  · intro hne hfil
    unfold setAccessTier
    rw [if_neg hguard, dif_pos (by simp)]
    simp only [List.get]
    rw [hv]
    show (if items.length = 0 then Except.error "No resources found"
      else setAccessTierLoop dryRun t logYAML update
        (List.filter (fun d => matchGlob d nodes drives status) items))
      = Except.ok ()
    have hlen : ¬(items.length = 0) := by
      simpa [List.length_eq_zero] using hne
    rw [if_neg hlen, hfil]
    rfl

/-- C9 witness: the empty-registry error evaluated on concrete inputs. -/
theorem setAccessTier_zero_records_error_w :
    setAccessTier false true [] [] [] ["hot"] noMatchGlob
        (Except.ok []) (fun _ => Except.ok ()) (fun _ => Except.ok ())
      = Except.error "No resources found" :=
  (setAccessTier_zero_records_error false true [] [] [] ["hot"] "hot"
    AccessTier.hot noMatchGlob (fun _ => Except.ok ())
    (fun _ => Except.ok ()) [] (Or.inl rfl) rfl rfl).1

end DirectCSI
